import Mathlib

/-!
Shallow embedding of the link-shortener worker:
the Hono app of the data service (redirect route, click-socket route,
do route), the click-queue consumer `handleLinkClick`, and — modelled
from the spec where the repository slice omits the code — the router
helper `getDestinationForCountry` and the persistence query
`addLinkClick`.
-/

namespace LinkShortener

/-- A geo routing rule: a country predicate (a country code, or the
wildcard string) paired with a destination URL.  The rule list of a
link is evaluated in order. -/
structure RouteRule where
  country : String
  destination : String
deriving Repr, DecidableEq

/-- Routing information for one link id, as returned by
`getRoutingDestinations`: the owning account id, the ordered rule list
and the default destination (spec section 4.2). -/
structure LinkInfo where
  accountId : String
  rules : List RouteRule
  defaultDestination : String
deriving Repr, DecidableEq

/-- Modelled from the spec: the rule predicate of the Router (section
4.1, and the example of section 8 where a rule with country pattern
star matches every country code).  The helper itself lives in
`helpers/route-ops`, which is outside the repository slice. -/
def ruleMatches (r : RouteRule) (countryCode : String) : Bool :=
  r.country = "*" || r.country = countryCode

/-- Modelled from the spec: the Router contract of section 4.1 —
evaluate rules in list order, the first rule whose predicate matches
the country code wins, and the default destination is returned when no
rule matches.  The implementation in `helpers/route-ops` is outside
the repository slice. -/
def resolve (rules : List RouteRule) (countryCode : String) (defaultDestination : String) :
    String :=
  match rules.find? (fun r => ruleMatches r countryCode) with
  | some r => r.destination
  | none => defaultDestination

/-- Modelled from the spec: `getDestinationForCountry` from
`helpers/route-ops` (outside the repository slice), the function the
redirect handler calls with the fetched link info and the parsed
country; per sections 4.1 and 4.2 it applies the Router to the rule
list and default destination of the link. -/
def getDestinationForCountry (linkInfo : LinkInfo) (countryCode : String) : String :=
  resolve linkInfo.rules countryCode linkInfo.defaultDestination

/-- The successfully parsed Cloudflare geo signal
(`cloudflareInfoSchema.safeParse` success value): the fields the
redirect handler reads — country, optional latitude and longitude. -/
structure CfInfo where
  country : String
  latitude : Option String
  longitude : Option String
deriving Repr, DecidableEq

/-- The `data` payload of a `LINK_CLICK` queue message, built by the
redirect handler of `part_001`. -/
structure LinkClickData where
  id : String
  country : String
  destination : String
  accountId : String
  latitude : Option String
  longitude : Option String
  timestamp : String
deriving Repr, DecidableEq

/-- A queue message (`LinkClickMessageType`): a `type` tag and the
click data. -/
structure LinkClickMessage where
  type : String
  data : LinkClickData
deriving Repr, DecidableEq

/-- One `QUEUE.send` call: the message and the `delaySeconds` option
it was sent with. -/
structure QueueSend where
  message : LinkClickMessage
  delaySeconds : Nat
deriving Repr, DecidableEq

/-- A response produced by the Hono app: a text response with a
status, a redirect (status 302), the empty json of the `do` route, or
the hand-off of the raw request to the `LINK_CLICK_TRACKER_OBJECT`
durable object instance obtained via `idFromName doName` (its final
status is decided by the durable object, not by the app). -/
inductive Response where
  | text (body : String) (status : Nat)
  | redirect (destination : String)
  | emptyJson
  | forwardToDO (doName : String)
deriving Repr, DecidableEq

/-- The status code carried by a response, when the app itself decides
it; `none` for a request handed to the durable object. -/
def Response.statusCode : Response → Option Nat
  | .text _ s => some s
  | .redirect _ => some 302
  | .emptyJson => some 200
  | .forwardToDO _ => none

/-- The externals the redirect handler consults: the link lookup
`getRoutingDestinations` (a read of the record store, `none` when the
link id is unknown) and the zod parse
`cloudflareInfoSchema.safeParse` of the raw `request.cf` geo signal
(`none` when validation fails). -/
structure Env where
  getRoutingDestinations : String → Option LinkInfo
  cloudflareInfoSafeParse : String → Option CfInfo

/-- The outcome of one handler run: the response returned to the
caller, and the list of queue sends that were dispatched through
`executionCtx.waitUntil` (dispatched after the response is produced —
the handler never awaits them). -/
structure HandlerResult where
  response : Response
  enqueued : List QueueSend
deriving Repr, DecidableEq

/-- The redirect route `GET /:id` of `part_001`: look the link up
(404 when unknown), validate the geo signal (400 when malformed),
resolve the destination, build the `LINK_CLICK` queue message, hand
the `QUEUE.send` with `delaySeconds` ten minutes to `waitUntil`, and
redirect. -/
def redirectHandler (env : Env) (id : String) (cf : String) (now : String) : HandlerResult :=
  match env.getRoutingDestinations id with
  | none => { response := Response.text "Destination not found" 404, enqueued := [] }
  | some linkInfo =>
    match env.cloudflareInfoSafeParse cf with
    | none => { response := Response.text "Invalid Cloudflare Headers" 400, enqueued := [] }
    | some headers =>
      let destination := getDestinationForCountry linkInfo headers.country
      let queueMessage : LinkClickMessage :=
        { type := "LINK_CLICK"
          data := { id := id
                    country := headers.country
                    destination := destination
                    accountId := linkInfo.accountId
                    latitude := headers.latitude
                    longitude := headers.longitude
                    timestamp := now } }
      { response := Response.redirect destination
        enqueued := [{ message := queueMessage, delaySeconds := 10 * 60 }] }

/-- The `GET /click-socket/:accountId` route of `part_001`: reject
with 426 unless the Upgrade header is exactly the websocket token,
reject with 404 when the accountId header is absent (or empty, which
is falsy), and otherwise forward the raw request to the durable
object instance named by the accountId header.  The handler never
reads the path parameter. -/
def clickSocketHandler (upgradeHeader : Option String) (accountIdHeader : Option String) :
    Response :=
  if upgradeHeader ≠ some "websocket" then Response.text "Expected Upgrade: websocket" 426
  else
    match accountIdHeader with
    | none => Response.text "No Headers" 404
    | some accountId =>
      if accountId = "" then Response.text "No Headers" 404
      else Response.forwardToDO accountId

/-- The Hono app of `part_001`: three GET routes, matched on path
segments in registration order — `/click-socket/:accountId`,
`/do/:name` (returns an empty json), and the single-segment `/:id`
redirect route; any other path falls through to the Hono default 404
text response. -/
def appDispatch (env : Env) (path : List String) (upgradeHeader : Option String)
    (accountIdHeader : Option String) (cf : String) (now : String) : HandlerResult :=
  match path with
  | [seg1, _seg2] =>
    if seg1 = "click-socket" then
      { response := clickSocketHandler upgradeHeader accountIdHeader, enqueued := [] }
    else if seg1 = "do" then
      { response := Response.emptyJson, enqueued := [] }
    else
      { response := Response.text "404 Not Found" 404, enqueued := [] }
  | [id] => redirectHandler env id cf now
  | _ => { response := Response.text "404 Not Found" 404, enqueued := [] }

/-- One observed run of the redirect route together with the eventual
fate of the `waitUntil` continuation: the response handed to the
visitor, and the queue sends actually delivered — all the enqueued
ones when the queue is available, none when it is not.  The response
field is computed before and independently of the queue outcome,
mirroring that the handler returns without awaiting `QUEUE.send`. -/
structure RedirectRun where
  response : Response
  delivered : List QueueSend
deriving Repr, DecidableEq

/-- Run the redirect route against a queue that is available
(`queueOk = true`) or entirely unavailable (`queueOk = false`). -/
def runRedirect (env : Env) (queueOk : Bool) (id : String) (cf : String) (now : String) :
    RedirectRun :=
  let r := redirectHandler env id cf now
  { response := r.response
    delivered := if queueOk then r.enqueued else [] }

/-- The externals of the click consumer: the persistence query
`addLinkClick` and the scheduler call `scheduleEvalWorfklow` (both
awaited promises, so each either resolves or rejects with an
error). -/
structure ConsumerEnv where
  addLinkClick : LinkClickData → Except String Unit
  scheduleEvalWorfklow : LinkClickMessage → Except String Unit

/-- The observable trace of one `handleLinkClick` run: whether
persistence succeeded, whether the scheduler call was reached, and
the settlement of the returned promise (an `error` makes the queue
mechanism redeliver the message). -/
structure ConsumerTrace where
  persisted : Bool
  schedulerInvoked : Bool
  result : Except String Unit
deriving Repr

/-- `handleLinkClick` of
`src/apps/data-service/src/queue-handlers/link-clicks.ts`:
`await addLinkClick(event.data)` then
`await scheduleEvalWorfklow(env, event)`; each awaited rejection
propagates out of the async function, aborting the rest of its
body. -/
def handleLinkClick (env : ConsumerEnv) (event : LinkClickMessage) : ConsumerTrace :=
  match env.addLinkClick event.data with
  | .error e => { persisted := false, schedulerInvoked := false, result := .error e }
  | .ok _ =>
    match env.scheduleEvalWorfklow event with
    | .error e => { persisted := true, schedulerInvoked := true, result := .error e }
    | .ok _ => { persisted := true, schedulerInvoked := true, result := .ok () }

/-- Queue-level consequence of a consumer run: the message is
redelivered exactly when the handler promise rejected. -/
def redelivered (t : ConsumerTrace) : Bool :=
  match t.result with
  | .error _ => true
  | .ok _ => false

/-- Modelled from the spec: the persisted click store behind
`addLinkClick` (the query lives in the external data-ops package,
outside the repository slice).  Records are keyed by the unique event
id used for idempotent persistence (spec sections 3 and 4.4). -/
abbrev ClickStore := List (String × LinkClickData)

/-- Modelled from the spec: `addLinkClick` as an idempotent upsert
keyed by event id (spec: persistence of the event is an idempotent
upsert; redelivering the same event id must not double-count).  An
existing record for the id is overwritten in place; otherwise the
record is inserted. -/
def addLinkClick (store : ClickStore) (eventId : String) (d : LinkClickData) : ClickStore :=
  if store.any (fun p => p.1 == eventId) then
    store.map (fun p => if p.1 == eventId then (eventId, d) else p)
  else
    (eventId, d) :: store

/-- The number of records stored under one event id. -/
def countKey (store : ClickStore) (eventId : String) : Nat :=
  (store.filter (fun p => p.1 == eventId)).length

/-- Fixture link: rules giving country US destination A, every other
country destination B, mirroring the example of spec section 8. -/
def testLinkInfo : LinkInfo :=
  { accountId := "acc_123"
    rules := [{ country := "US", destination := "A" }, { country := "*", destination := "B" }]
    defaultDestination := "https://example.com/fallback" }

/-- Fixture environment: one known link id, and a geo parse that
succeeds exactly on one raw value. -/
def testEnv : Env :=
  { getRoutingDestinations := fun id => if id = "dAd5d" then some testLinkInfo else none
    cloudflareInfoSafeParse := fun cf =>
      if cf = "validCf" then some { country := "US", latitude := none, longitude := none }
      else none }

/-- Fixture queue message, shaped like the producer builds it. -/
def testEvent : LinkClickMessage :=
  { type := "LINK_CLICK"
    data := { id := "dAd5d"
              country := "US"
              destination := "A"
              accountId := "acc_123"
              latitude := none
              longitude := none
              timestamp := "2024-01-15T14:32:18Z" } }

/-- Fixture consumer environment in which persistence succeeds and
the scheduler call rejects. -/
def schedulerDownEnv : ConsumerEnv :=
  { addLinkClick := fun _ => Except.ok ()
    scheduleEvalWorfklow := fun _ => Except.error "scheduler unavailable" }

/-- Fixture consumer environment in which persistence fails. -/
def persistenceDownEnv : ConsumerEnv :=
  { addLinkClick := fun _ => Except.error "db unavailable"
    scheduleEvalWorfklow := fun _ => Except.ok () }

/-- C1: every run of the redirect route falls in exactly one of three
cases — unknown link id gives the 404 text response, known link id
with a geo signal that fails validation gives the 400 text response,
and known link id with a valid geo signal gives a 302 redirect to the
resolved destination; consequently the only status codes the redirect
path produces are 302, 404 and 400. -/
theorem redirect_status_cases (env : Env) (id cf now : String) :
    ((env.getRoutingDestinations id = none ∧
        (redirectHandler env id cf now).response = Response.text "Destination not found" 404) ∨
      (∃ li, env.getRoutingDestinations id = some li ∧
        env.cloudflareInfoSafeParse cf = none ∧
        (redirectHandler env id cf now).response =
          Response.text "Invalid Cloudflare Headers" 400) ∨
      (∃ li cfi, env.getRoutingDestinations id = some li ∧
        env.cloudflareInfoSafeParse cf = some cfi ∧
        (redirectHandler env id cf now).response =
          Response.redirect (getDestinationForCountry li cfi.country))) ∧
    ((redirectHandler env id cf now).response.statusCode = some 302 ∨
      (redirectHandler env id cf now).response.statusCode = some 404 ∨
      (redirectHandler env id cf now).response.statusCode = some 400) := by
  cases h1 : env.getRoutingDestinations id with
  | none =>
    refine ⟨Or.inl ⟨rfl, by simp [redirectHandler, h1]⟩, ?_⟩
    right; left
    simp [redirectHandler, h1, Response.statusCode]
  | some li =>
    cases h2 : env.cloudflareInfoSafeParse cf with
    | none =>
      refine ⟨Or.inr (Or.inl ⟨li, rfl, rfl, by simp [redirectHandler, h1, h2]⟩), ?_⟩
      right; right
      simp [redirectHandler, h1, h2, Response.statusCode]
    | some cfi =>
      refine ⟨Or.inr (Or.inr ⟨li, cfi, rfl, rfl, by simp [redirectHandler, h1, h2]⟩), ?_⟩
      left
      simp [redirectHandler, h1, h2, Response.statusCode]

/-- C9: the link-existence check strictly precedes geo-signal
validation — an unknown link id yields the 404 response regardless of
the geo signal (in particular when it is also malformed), and a 400
response can only arise when the link id resolved and the geo parse
failed. -/
theorem link_check_precedes_geo (env : Env) (id cf now : String) :
    (env.getRoutingDestinations id = none →
      (redirectHandler env id cf now).response = Response.text "Destination not found" 404) ∧
    ((redirectHandler env id cf now).response.statusCode = some 400 →
      ∃ li, env.getRoutingDestinations id = some li ∧
        env.cloudflareInfoSafeParse cf = none) := by
  constructor
  · intro h1
    simp [redirectHandler, h1]
  · intro h400
    cases h1 : env.getRoutingDestinations id with
    | none => simp [redirectHandler, h1, Response.statusCode] at h400
    | some li =>
      cases h2 : env.cloudflareInfoSafeParse cf with
      | none => exact ⟨li, rfl, rfl⟩
      | some cfi => simp [redirectHandler, h1, h2, Response.statusCode] at h400

/-- Witness for C9: an unknown link id with a geo signal that would
also fail validation still yields the 404 response. -/
theorem link_check_precedes_geo_witness :
    (redirectHandler testEnv "unknownId" "garbage" "t").response =
      Response.text "Destination not found" 404 :=
  (link_check_precedes_geo testEnv "unknownId" "garbage" "t").1 (by decide)

/-- C3: for a valid link id with a valid geo signal, the redirect
response is the same whether the queue is available or not — the
response field of a run never depends on the queue outcome, and it is
the 302 redirect to the resolved destination. -/
theorem redirect_independent_of_queue (env : Env) (id cf now : String) (li : LinkInfo)
    (cfi : CfInfo) (q1 q2 : Bool)
    (h1 : env.getRoutingDestinations id = some li)
    (h2 : env.cloudflareInfoSafeParse cf = some cfi) :
    (runRedirect env q1 id cf now).response = (runRedirect env q2 id cf now).response ∧
    (runRedirect env q1 id cf now).response =
      Response.redirect (getDestinationForCountry li cfi.country) := by
  refine ⟨rfl, ?_⟩
  simp [runRedirect, redirectHandler, h1, h2]

/-- Witness for C3: on the fixture link, a run with the queue
available and a run with the queue disabled return the same response,
the redirect to destination A. -/
theorem redirect_independent_of_queue_witness :
    (runRedirect testEnv true "dAd5d" "validCf" "t").response =
      (runRedirect testEnv false "dAd5d" "validCf" "t").response ∧
    (runRedirect testEnv true "dAd5d" "validCf" "t").response = Response.redirect "A" := by
  have h := redirect_independent_of_queue testEnv "dAd5d" "validCf" "t" testLinkInfo
    { country := "US", latitude := none, longitude := none } true false (by decide) (by decide)
  exact ⟨h.1, h.2.trans (by decide)⟩

/-- C5: every successful redirect enqueues exactly one queue message —
a LINK_CLICK message whose data carries the requested link id, the
parsed country, the redirect destination, the accountId of the
resolved link, the optional coordinates and the timestamp — sent with
a delivery delay of 600 seconds. -/
theorem queue_message_shape (env : Env) (id cf now d : String)
    (hr : (redirectHandler env id cf now).response = Response.redirect d) :
    ∃ li cfi, env.getRoutingDestinations id = some li ∧
      env.cloudflareInfoSafeParse cf = some cfi ∧
      d = getDestinationForCountry li cfi.country ∧
      (redirectHandler env id cf now).enqueued =
        [{ message := { type := "LINK_CLICK"
                        data := { id := id
                                  country := cfi.country
                                  destination := d
                                  accountId := li.accountId
                                  latitude := cfi.latitude
                                  longitude := cfi.longitude
                                  timestamp := now } }
           delaySeconds := 600 }] := by
  cases h1 : env.getRoutingDestinations id with
  | none => simp [redirectHandler, h1] at hr
  | some li =>
    cases h2 : env.cloudflareInfoSafeParse cf with
    | none => simp [redirectHandler, h1, h2] at hr
    | some cfi =>
      have hd : getDestinationForCountry li cfi.country = d := by
        simpa [redirectHandler, h1, h2] using hr
      exact ⟨li, cfi, rfl, rfl, hd.symm, by simp [redirectHandler, h1, h2, hd]⟩

/-- Witness for C5: the fixture run that redirects to destination A
enqueues exactly the corresponding LINK_CLICK message with delay
600. -/
theorem queue_message_shape_witness :
    ∃ li cfi, testEnv.getRoutingDestinations "dAd5d" = some li ∧
      testEnv.cloudflareInfoSafeParse "validCf" = some cfi ∧
      "A" = getDestinationForCountry li cfi.country ∧
      (redirectHandler testEnv "dAd5d" "validCf" "t").enqueued =
        [{ message := { type := "LINK_CLICK"
                        data := { id := "dAd5d"
                                  country := cfi.country
                                  destination := "A"
                                  accountId := li.accountId
                                  latitude := cfi.latitude
                                  longitude := cfi.longitude
                                  timestamp := "t" } }
           delaySeconds := 600 }] :=
  queue_message_shape testEnv "dAd5d" "validCf" "t" "A" (by decide)

/-- A prefix of rules none of which matches the country code does not
affect resolution. -/
theorem resolve_append_of_no_match (pre rest : List RouteRule) (c d : String)
    (hpre : ∀ r ∈ pre, ruleMatches r c = false) :
    resolve (pre ++ rest) c d = resolve rest c d := by
  induction pre with
  | nil => rfl
  | cons a t ih =>
    have ha := hpre a (List.mem_cons_self a t)
    have ht : ∀ r ∈ t, ruleMatches r c = false := fun r h => hpre r (List.mem_cons_of_mem a h)
    have step : resolve ((a :: t) ++ rest) c d = resolve (t ++ rest) c d := by
      simp [resolve, List.find?, ha]
    exact step.trans (ih ht)

/-- C4: the Router is first-match-wins — when no rule of the prefix
matches and rule r matches, the destination of r is returned; when no
rule matches at all, the default destination is returned; and on the
concrete rule list US to A, wildcard to B, country US resolves to A
and country DE resolves to B. -/
theorem resolve_first_match (pre post : List RouteRule) (r : RouteRule) (c d : String)
    (hpre : ∀ r' ∈ pre, ruleMatches r' c = false) (hr : ruleMatches r c = true) :
    resolve (pre ++ r :: post) c d = r.destination ∧
    resolve pre c d = d ∧
    resolve [{ country := "US", destination := "A" },
             { country := "*", destination := "B" }] "US" d = "A" ∧
    resolve [{ country := "US", destination := "A" },
             { country := "*", destination := "B" }] "DE" d = "B" := by
  refine ⟨?_, ?_, ?_, ?_⟩
  · rw [resolve_append_of_no_match pre (r :: post) c d hpre]
    simp [resolve, List.find?, hr]
  · have h := resolve_append_of_no_match pre [] c d hpre
    simpa [resolve] using h
  · simp [resolve, List.find?, ruleMatches]
  · simp [resolve, List.find?, ruleMatches]

/-- Witness for C4: with a non-matching CA rule before the US rule and
the wildcard rule after it, country US resolves to A; the CA rule
alone leaves the default; and the two concrete examples evaluate as
claimed. -/
theorem resolve_first_match_witness :
    resolve ([{ country := "CA", destination := "C" }] ++
        { country := "US", destination := "A" } ::
          [{ country := "*", destination := "B" }]) "US" "D" = "A" ∧
    resolve [{ country := "CA", destination := "C" }] "US" "D" = "D" ∧
    resolve [{ country := "US", destination := "A" },
             { country := "*", destination := "B" }] "US" "D" = "A" ∧
    resolve [{ country := "US", destination := "A" },
             { country := "*", destination := "B" }] "DE" "D" = "B" :=
  resolve_first_match [{ country := "CA", destination := "C" }]
    [{ country := "*", destination := "B" }] { country := "US", destination := "A" }
    "US" "D" (by decide) (by decide)

/-- C7: the scheduler call of the click consumer is reached only when
persistence resolved successfully, and when persistence rejects the
scheduler is never invoked for that event. -/
theorem scheduler_only_after_persistence (env : ConsumerEnv) (event : LinkClickMessage) :
    ((handleLinkClick env event).schedulerInvoked = true →
      env.addLinkClick event.data = Except.ok ()) ∧
    (∀ e, env.addLinkClick event.data = Except.error e →
      (handleLinkClick env event).schedulerInvoked = false) := by
  constructor
  · intro hs
    cases hp : env.addLinkClick event.data with
    | error e => simp [handleLinkClick, hp] at hs
    | ok u => cases u; rfl
  · intro e he
    simp [handleLinkClick, he]

/-- Witness for C7: in an environment where persistence rejects, the
scheduler is not invoked. -/
theorem scheduler_only_after_persistence_witness :
    (handleLinkClick persistenceDownEnv testEvent).schedulerInvoked = false :=
  (scheduler_only_after_persistence persistenceDownEnv testEvent).2 "db unavailable" rfl

/-- Counterexample to C2 as stated: with persistence succeeding and
the scheduler call rejecting, the rejection propagates out of
handleLinkClick, so the whole message settles with an error and is
redelivered — the scheduler failure is not confined to the evaluation
trigger. -/
theorem scheduler_failure_fails_message :
    (handleLinkClick schedulerDownEnv testEvent).persisted = true ∧
    (handleLinkClick schedulerDownEnv testEvent).result =
      Except.error "scheduler unavailable" ∧
    redelivered (handleLinkClick schedulerDownEnv testEvent) = true :=
  ⟨rfl, rfl, rfl⟩

/-- C2 amended: when persistence succeeds and the scheduler call
fails, handleLinkClick propagates the scheduler error as the result
of the whole message — persistence has happened, but the message
settles with the error and is redelivered at the message level; the
code does not split the message-level result from the trigger-level
result. -/
theorem scheduler_failure_propagates (env : ConsumerEnv) (event : LinkClickMessage)
    (e : String)
    (hp : env.addLinkClick event.data = Except.ok ())
    (hs : env.scheduleEvalWorfklow event = Except.error e) :
    (handleLinkClick env event).persisted = true ∧
    (handleLinkClick env event).result = Except.error e ∧
    redelivered (handleLinkClick env event) = true := by
  simp [handleLinkClick, hp, hs, redelivered]

/-- Witness for the amended C2: the fixture environment with an
unavailable scheduler exhibits persistence success together with a
message-level error and redelivery. -/
theorem scheduler_failure_propagates_witness :
    (handleLinkClick schedulerDownEnv testEvent).persisted = true ∧
    (handleLinkClick schedulerDownEnv testEvent).result =
      Except.error "scheduler unavailable" ∧
    redelivered (handleLinkClick schedulerDownEnv testEvent) = true :=
  scheduler_failure_propagates schedulerDownEnv testEvent "scheduler unavailable" rfl rfl

/-- Overwriting records under a key leaves a store with no record for
that key unchanged. -/
theorem map_upsert_of_no_key (s : ClickStore) (e : String) (d : LinkClickData)
    (h : ∀ p ∈ s, ¬ p.1 = e) :
    s.map (fun p => if p.1 = e then (e, d) else p) = s := by
  induction s with
  | nil => rfl
  | cons a t ih =>
    have ha : ¬ a.1 = e := h a (List.mem_cons_self a t)
    have ht : ∀ p ∈ t, ¬ p.1 = e := fun p hp => h p (List.mem_cons_of_mem a hp)
    simp only [List.map_cons, if_neg ha, ih ht]

/-- C6: persistence is idempotent in the event id — starting from a
store with no record for the event id, handling the same click event
twice leaves exactly one record under that id, and the second upsert
leaves the store of the first unchanged. -/
theorem addLinkClick_idempotent (s : ClickStore) (e : String) (d : LinkClickData)
    (h : countKey s e = 0) :
    countKey (addLinkClick s e d) e = 1 ∧
    addLinkClick (addLinkClick s e d) e d = addLinkClick s e d := by
  have hall : ∀ p ∈ s, (p.1 == e) = false := by
    have hnil : s.filter (fun p => p.1 == e) = [] := by
      have := h
      simpa [countKey, List.length_eq_zero] using this
    intro p hp
    by_contra hne
    have hmem : p ∈ s.filter (fun p => p.1 == e) := by
      rw [List.mem_filter]
      exact ⟨hp, by simpa using hne⟩
    rw [hnil] at hmem
    exact List.not_mem_nil p hmem
  have hany : s.any (fun p => p.1 == e) = false := by
    rw [List.any_eq_false]
    intro p hp
    simp [hall p hp]
  have hfresh : addLinkClick s e d = (e, d) :: s := by
    simp [addLinkClick, hany]
  constructor
  · rw [hfresh]
    have hfil : s.filter (fun p => p.1 == e) = [] := by
      simpa [countKey, List.length_eq_zero] using h
    simp [countKey, List.filter, hfil]
  · rw [hfresh]
    have hany2 : ((e, d) :: s).any (fun p => p.1 == e) = true := by
      simp [List.any_cons]
    simp only [addLinkClick, hany2, if_true]
    simp [List.map_cons]
    exact map_upsert_of_no_key s e d (fun p hp => by simpa using hall p hp)

/-- Witness for C6: inserting the same event twice into the empty
store stores exactly one record and the second insert is a no-op. -/
theorem addLinkClick_idempotent_witness :
    countKey (addLinkClick ([] : ClickStore) "evt_1" testEvent.data) "evt_1" = 1 ∧
    addLinkClick (addLinkClick ([] : ClickStore) "evt_1" testEvent.data) "evt_1"
        testEvent.data =
      addLinkClick ([] : ClickStore) "evt_1" testEvent.data :=
  addLinkClick_idempotent ([] : ClickStore) "evt_1" testEvent.data rfl

/-- Counterexample to C8 as stated: the app registers the
subscription route at /click-socket/:accountId, so a request to
/click-stream/acc_123 matches no route and gets the framework 404 —
both without an upgrade header (where the claim predicts 426) and
with a websocket upgrade and an accountId header (where the claim
predicts a hand-off to the aggregator instance). -/
theorem click_stream_route_unmatched :
    (appDispatch testEnv ["click-stream", "acc_123"] none none "validCf" "t").response =
      Response.text "404 Not Found" 404 ∧
    (appDispatch testEnv ["click-stream", "acc_123"] (some "websocket") (some "acc_123")
        "validCf" "t").response = Response.text "404 Not Found" 404 :=
  ⟨by decide, by decide⟩

/-- C8 amended: the live-counter subscription endpoint is served at
GET /click-socket/:accountId and, for every request to it — no
websocket upgrade gives 426, a websocket upgrade without an
account-identifying header (absent or empty) gives 404, and a
websocket upgrade with an accountId header hands the request to the
per-account aggregator instance named by that header. -/
theorem click_socket_endpoint (env : Env) (pathAcc cf now : String)
    (u a : Option String) :
    (u ≠ some "websocket" →
      (appDispatch env ["click-socket", pathAcc] u a cf now).response =
        Response.text "Expected Upgrade: websocket" 426) ∧
    ((a = none ∨ a = some "") → u = some "websocket" →
      (appDispatch env ["click-socket", pathAcc] u a cf now).response =
        Response.text "No Headers" 404) ∧
    (∀ acc, u = some "websocket" → a = some acc → acc ≠ "" →
      (appDispatch env ["click-socket", pathAcc] u a cf now).response =
        Response.forwardToDO acc) := by
  refine ⟨?_, ?_, ?_⟩
  · intro hu
    simp [appDispatch, clickSocketHandler, hu]
  · rintro (ha | ha) hu <;> subst hu <;> subst ha <;>
      simp [appDispatch, clickSocketHandler]
  · intro acc hu ha hacc
    subst hu
    subst ha
    simp [appDispatch, clickSocketHandler, hacc]

/-- Witness for the amended C8: a websocket request to the
click-socket route with accountId header acc_123 is handed to the
aggregator instance named acc_123. -/
theorem click_socket_endpoint_witness :
    (appDispatch testEnv ["click-socket", "ignored"] (some "websocket") (some "acc_123")
        "validCf" "t").response = Response.forwardToDO "acc_123" :=
  (click_socket_endpoint testEnv "ignored" "validCf" "t" (some "websocket")
      (some "acc_123")).2.2 "acc_123" rfl rfl (by decide)

/-- C10: the aggregator instance is addressed by the accountId
request header, not by the path parameter — a websocket request with
a nonempty accountId header is forwarded to the instance named by
that header, and two requests that differ only in the path segment
produce identical results. -/
theorem tracker_addressed_by_header (env : Env) (p1 p2 acc cf now : String)
    (u : Option String) (hu : u = some "websocket") (hacc : acc ≠ "") :
    (appDispatch env ["click-socket", p1] u (some acc) cf now).response =
      Response.forwardToDO acc ∧
    appDispatch env ["click-socket", p1] u (some acc) cf now =
      appDispatch env ["click-socket", p2] u (some acc) cf now := by
  subst hu
  refine ⟨?_, rfl⟩
  simp [appDispatch, clickSocketHandler, hacc]

/-- Witness for C10: two requests with the same accountId header but
different path segments reach the same aggregator instance. -/
theorem tracker_addressed_by_header_witness :
    (appDispatch testEnv ["click-socket", "path-acc-1"] (some "websocket") (some "acc_123")
        "validCf" "t").response = Response.forwardToDO "acc_123" ∧
    appDispatch testEnv ["click-socket", "path-acc-1"] (some "websocket") (some "acc_123")
        "validCf" "t" =
      appDispatch testEnv ["click-socket", "path-acc-2"] (some "websocket") (some "acc_123")
        "validCf" "t" :=
  tracker_addressed_by_header testEnv "path-acc-1" "path-acc-2" "acc_123" "validCf" "t"
    (some "websocket") rfl (by decide)

end LinkShortener
